import Mathlib

/-!
Shallow embedding of the optimization-action pipeline of the
GoogleAdsAutomation backend: anomaly detection (`agents/monitor.py`),
proposal generation and persistence (`agents/analyzer.py`), the approval
endpoints (`api/routes/actions.py`, `api/routes/optimizations.py`) and
action execution (`agents/executor.py`).

Modelling conventions: numeric metric values are rationals; database
tables are lists of records; `datetime.now()` is an explicit `now : Nat`
tick passed in; the external Google Ads platform and the LLM text
generation service are oracles passed to the functions that invoke
them, and each embedded function that talks to the platform also
returns the number of platform-service invocations it performed.
Python truthiness tests (`if not x`) on nullable numeric fields are
modelled by `truthyI` / `truthyQ` below.
-/

namespace GoogleAdsAutomation

/-- Byte-wise lexicographic comparison of strings, used to model the SQL
`ORDER BY priority DESC` over the `String(20)` priority column
(`database/models.py`). -/
def strLtAux : List Char → List Char → Bool
  | [], [] => false
  | [], _ :: _ => true
  | _ :: _, [] => false
  | c :: cs, d :: ds => if c < d then true else if d < c then false else strLtAux cs ds

/-- Lexicographic `<` on strings (collation of the priority column). -/
def strLt (a b : String) : Bool := strLtAux a.data b.data

/-- Python truthiness of a nullable integer column/JSON field:
`None` and `0` are falsy. -/
def truthyI : Option Int → Bool
  | none => false
  | some n => n != 0

/-- Python truthiness of a nullable numeric column: `None` and `0` are falsy. -/
def truthyQ : Option ℚ → Bool
  | none => false
  | some q => q != 0

/-- Threshold configuration from `config/settings.py`; the defaults there
are `TARGET_CTR_MIN = 2.0`, `TARGET_CPC_MAX = 0.60`, `TARGET_ROAS_MIN = 1.5`,
`TARGET_OPTIMIZATION_SCORE_MIN = 60.0`. -/
structure Settings where
  TARGET_CTR_MIN : ℚ := 2
  TARGET_CPC_MAX : ℚ := 3/5
  TARGET_ROAS_MIN : ℚ := 3/2
  TARGET_OPTIMIZATION_SCORE_MIN : ℚ := 60
  deriving Repr, DecidableEq

/-- One campaign metrics record as handed to
`CampaignMonitor.detect_anomalies` (`agents/monitor.py`): exactly the keys
the detector reads.  `optimization_score` and `budget` are nullable, so the
code guards them with Python truthiness before comparing. -/
structure Snapshot where
  campaign_id : Int
  campaign_name : String := ""
  status : String := "ENABLED"
  ctr : ℚ := 0
  cpc : ℚ := 0
  roas : ℚ := 0
  conversions : ℚ := 0
  cost : ℚ := 0
  optimization_score : Option ℚ := none
  budget : Option ℚ := none
  deriving Repr, DecidableEq, Inhabited

/-- An alert record as built by `detect_anomalies`; the human-readable
message and the structured details payload are not modelled. -/
structure AlertData where
  campaign_id : Int
  alert_type : String
  severity : String
  deriving Repr, DecidableEq

/-- The per-campaign body of `CampaignMonitor.detect_anomalies`
(`agents/monitor.py` lines 366-445): paused campaigns are skipped
entirely; the five threshold checks then fire independently, in order. -/
def detectOne (s : Settings) (campaign : Snapshot) : List AlertData :=
  if campaign.status == "PAUSED" then []
  else
    (if campaign.ctr < s.TARGET_CTR_MIN then
      [⟨campaign.campaign_id, "LOW_CTR", "MEDIUM"⟩] else []) ++
    (if campaign.cpc > s.TARGET_CPC_MAX then
      [⟨campaign.campaign_id, "HIGH_CPC", "MEDIUM"⟩] else []) ++
    (if campaign.conversions > 0 ∧ campaign.roas < s.TARGET_ROAS_MIN then
      [⟨campaign.campaign_id, "LOW_ROAS", "HIGH"⟩] else []) ++
    (if truthyQ campaign.optimization_score ∧
        campaign.optimization_score.getD 0 < s.TARGET_OPTIMIZATION_SCORE_MIN then
      [⟨campaign.campaign_id, "LOW_OPTIMIZATION_SCORE", "LOW"⟩] else []) ++
    (if truthyQ campaign.budget ∧ campaign.cost ≥ campaign.budget.getD 0 * (95/100) then
      [⟨campaign.campaign_id, "BUDGET_EXHAUSTED", "HIGH"⟩] else [])

/-- `CampaignMonitor.detect_anomalies` (`agents/monitor.py` lines 352-448):
the alerts of all campaigns in the batch, concatenated in input order. -/
def detect_anomalies (s : Settings) (campaigns : List Snapshot) : List AlertData :=
  campaigns.flatMap (detectOne s)

/-- A JSON target payload of a proposed action, with the fields the
executor handlers and the prompt schema mention; absent keys are `none`
and a bare `.get` default applies where the code supplies one. -/
structure Target where
  ad_group_id : Option Int := none
  ad_id : Option Int := none
  criterion_id : Option Int := none
  new_bid_micros : Option Int := none
  new_budget_micros : Option Int := none
  keywords : List String := []
  match_type : Option String := none
  keyword_id : Option Int := none
  keyword_text : Option String := none
  deriving Repr, DecidableEq, Inhabited

/-- A `proposed_actions` row (`database/models.py`, class `ProposedAction`);
JSON result blobs and the `ai_model` column are not modelled. -/
structure ProposedActionRec where
  id : Nat
  campaign_id : Int
  campaign_name : Option String := none
  action_type : String
  priority : String := "MEDIUM"
  target : Option Target := none
  reason : String := ""
  expected_impact : String := ""
  confidence : ℚ := 0
  current_value : Option String := none
  proposed_value : Option String := none
  ai_summary : Option String := none
  status : String := "PENDING"
  created_at : Nat := 0
  approved_at : Option Nat := none
  approved_by : Option String := none
  executed_at : Option Nat := none
  execution_error : Option String := none
  deriving Repr, DecidableEq, Inhabited

/-- An `action_logs` row (`database/models.py`, class `ActionLog`); the
`details` and `api_response` JSON blobs are not modelled. -/
structure ActionLogRec where
  action_id : Nat
  campaign_id : Int
  action_type : String
  status : String
  error_message : Option String := none
  executed_at : Nat := 0
  deriving Repr, DecidableEq, Inhabited

/-- The mutable store shared by the pipeline: the `proposed_actions` and
`action_logs` tables. -/
structure DBState where
  actions : List ProposedActionRec := []
  logs : List ActionLogRec := []
  deriving Repr, DecidableEq, Inhabited

/-- One action object of the parsed model response, as consumed by
`CampaignAnalyzer.save_proposed_actions` (`agents/analyzer.py`): every
key is read with `.get`, so every field is optional. -/
structure ActionData where
  action_type : String
  priority : Option String := none
  target : Option Target := none
  reason : Option String := none
  expected_impact : Option String := none
  confidence : Option ℚ := none
  current_value : Option String := none
  proposed_value : Option String := none
  deriving Repr, DecidableEq, Inhabited

/-- The confidence normalisation inside
`CampaignAnalyzer.save_proposed_actions` (`agents/analyzer.py` lines
735-737): a value above 1 is taken to be on the 0-100 percent scale and
divided by 100; anything else passes through. -/
def normalize_confidence (confidence : ℚ) : ℚ :=
  if confidence > 1 then confidence / 100 else confidence

/-- The `ProposedAction` row built for one parsed model action inside
`save_proposed_actions`: missing keys fall back to the defaults the code
supplies (`priority` MEDIUM, `confidence` 50, empty strings), `status`
starts PENDING, and `id` comes from the database sequence. -/
def proposed_of_action_data (campaign_id : Int) (campaign_name : String)
    (ai_summary : String) (id : Nat) (now : Nat) (a : ActionData) : ProposedActionRec :=
  { id := id
    campaign_id := campaign_id
    campaign_name := some campaign_name
    action_type := a.action_type
    priority := a.priority.getD "MEDIUM"
    target := some (a.target.getD {})
    reason := a.reason.getD ""
    expected_impact := a.expected_impact.getD ""
    confidence := normalize_confidence (a.confidence.getD 50)
    current_value := a.current_value
    proposed_value := a.proposed_value
    ai_summary := some ai_summary
    status := "PENDING"
    created_at := now }

/-- `CampaignAnalyzer.save_proposed_actions` (`agents/analyzer.py` lines
711-768): persists each parsed action as a PENDING `ProposedAction` and
returns the saved rows; `startId` stands for the database id sequence
(`db.flush()` assigns consecutive ids). -/
def save_proposed_actions (campaign_id : Int) (campaign_name : String)
    (actions : List ActionData) (ai_summary : String) (startId : Nat) (now : Nat)
    (db : DBState) : DBState × List ProposedActionRec :=
  match actions with
  | [] => (db, [])
  | a :: rest =>
    let row := proposed_of_action_data campaign_id campaign_name ai_summary startId now a
    let (db', saved) := save_proposed_actions campaign_id campaign_name rest ai_summary
      (startId + 1) now { db with actions := db.actions ++ [row] }
    (db', row :: saved)

/-- One history entry as read by the trend block of
`CampaignAnalyzer.build_analysis_prompt`: the four metrics it uses. -/
structure HistEntry where
  ctr : ℚ := 0
  roas : ℚ := 0
  cpc : ℚ := 0
  conversions : ℚ := 0
  deriving Repr, DecidableEq, Inhabited

/-- The six trend figures computed in `build_analysis_prompt`. -/
structure TrendChanges where
  daily_ctr_change : ℚ
  daily_roas_change : ℚ
  daily_conv_change : ℚ
  weekly_ctr_change : ℚ
  weekly_cpc_change : ℚ
  weekly_roas_change : ℚ
  deriving Repr, DecidableEq

/-- The percentage-delta block of `CampaignAnalyzer.build_analysis_prompt`
(`agents/analyzer.py` lines 399-407): each percentage delta is guarded,
yielding 0 when the prior value is not positive; the day-over-day
conversions figure is an absolute difference with no division at all. -/
def trend_changes (latest yesterday week_ago : HistEntry) : TrendChanges :=
  { daily_ctr_change :=
      if yesterday.ctr > 0 then (latest.ctr - yesterday.ctr) / yesterday.ctr * 100 else 0
    daily_roas_change :=
      if yesterday.roas > 0 then (latest.roas - yesterday.roas) / yesterday.roas * 100 else 0
    daily_conv_change := latest.conversions - yesterday.conversions
    weekly_ctr_change :=
      if week_ago.ctr > 0 then (latest.ctr - week_ago.ctr) / week_ago.ctr * 100 else 0
    weekly_cpc_change :=
      if week_ago.cpc > 0 then (latest.cpc - week_ago.cpc) / week_ago.cpc * 100 else 0
    weekly_roas_change :=
      if week_ago.roas > 0 then (latest.roas - week_ago.roas) / week_ago.roas * 100 else 0 }

/-- Selection of the three reference entries in `build_analysis_prompt`
(lines 394-397): `latest = history[0]`, `yesterday = history[1]` when it
exists, `week_ago = history[6]` when it exists else the last entry; the
whole block only runs when the history has at least two entries. -/
def trend_of_history (history : List HistEntry) : Option TrendChanges :=
  if 2 ≤ history.length then
    some (trend_changes (history.getD 0 default)
      (if 1 < history.length then history.getD 1 default else history.getD 0 default)
      (if 6 < history.length then history.getD 6 default else history.getLastD default))
  else none

/-- Outcome of one Google Ads service call as seen by a handler's
`try`/`except`: success with a resource name, a `GoogleAdsException`
carrying per-error messages, or any other exception. -/
inductive PlatformOutcome
  | ok (resource_name : String)
  | adsException (error : String) (error_messages : List String)
  | exn (error : String)
  deriving Repr, DecidableEq

/-- Outcome of the budget-resource lookup query inside
`execute_change_budget`: the campaign's budget resource name, an empty
result set, or a raised exception. -/
inductive SearchBudgetOutcome
  | found (resource_name : String)
  | notFound
  | adsException (error : String) (error_messages : List String)
  | exn (error : String)
  deriving Repr, DecidableEq

/-- Oracle for the Google Ads platform service: one field per mutation
the executor performs (§6 of the spec).  The executor's behaviour is a
function of these responses. -/
structure AdsPlatform where
  mutate_ad_group_ads : Int → Int → PlatformOutcome
  pause_ad_group_criterion : Int → Int → PlatformOutcome
  update_criterion_bid : Int → Int → Int → PlatformOutcome
  mutate_campaign_criteria : Int → List String → String → PlatformOutcome
  search_campaign_budget : Int → SearchBudgetOutcome
  mutate_campaign_budgets : String → Int → PlatformOutcome

/-- The result dictionary a handler returns (`status` plus the optional
`reason`/`error`/`error_messages`/`resource_name`/`message` keys the
code sets on the various paths). -/
structure ExecResult where
  status : String
  reason : Option String := none
  error : Option String := none
  error_messages : List String := []
  resource_name : Option String := none
  message : Option String := none
  deriving Repr, DecidableEq, Inhabited

/-- `CampaignExecutor.execute_pause_ad` (`agents/executor.py` lines
66-139).  The second component counts platform-service invocations. -/
def execute_pause_ad (platform : AdsPlatform) (action : ProposedActionRec) :
    ExecResult × Nat :=
  let target := action.target.getD {}
  if !truthyI target.ad_group_id || !truthyI target.ad_id then
    ({ status := "SKIPPED", reason := some "Missing ad_group_id or ad_id in target" }, 0)
  else
    match platform.mutate_ad_group_ads (target.ad_group_id.getD 0) (target.ad_id.getD 0) with
    | .ok rn => ({ status := "SUCCESS", resource_name := some rn }, 1)
    | .adsException e msgs =>
        ({ status := "FAILED", error := some e, error_messages := msgs }, 1)
    | .exn e => ({ status := "FAILED", error := some e }, 1)

/-- `CampaignExecutor.execute_pause_keyword` (`agents/executor.py` lines
141-214). -/
def execute_pause_keyword (platform : AdsPlatform) (action : ProposedActionRec) :
    ExecResult × Nat :=
  let target := action.target.getD {}
  if !truthyI target.ad_group_id || !truthyI target.criterion_id then
    ({ status := "SKIPPED", reason := some "Missing ad_group_id or criterion_id in target" }, 0)
  else
    match platform.pause_ad_group_criterion (target.ad_group_id.getD 0)
        (target.criterion_id.getD 0) with
    | .ok rn => ({ status := "SUCCESS", resource_name := some rn }, 1)
    | .adsException e msgs =>
        ({ status := "FAILED", error := some e, error_messages := msgs }, 1)
    | .exn e => ({ status := "FAILED", error := some e }, 1)

/-- `CampaignExecutor.execute_add_negative_keyword` (`agents/executor.py`
lines 216-292): the keyword list is one batched mutate call; an empty
list is skipped before any call. -/
def execute_add_negative_keyword (platform : AdsPlatform)
    (action : ProposedActionRec) : ExecResult × Nat :=
  let target := action.target.getD {}
  let keywords := target.keywords
  let match_type := target.match_type.getD "PHRASE"
  if keywords.isEmpty then
    ({ status := "SKIPPED", reason := some "No keywords specified in target" }, 0)
  else
    match platform.mutate_campaign_criteria action.campaign_id keywords match_type with
    | .ok _ => ({ status := "SUCCESS" }, 1)
    | .adsException e msgs =>
        ({ status := "FAILED", error := some e, error_messages := msgs }, 1)
    | .exn e => ({ status := "FAILED", error := some e }, 1)

/-- `CampaignExecutor.execute_change_bid` (`agents/executor.py` lines
294-369): requires `ad_group_id`, `criterion_id` and `new_bid_micros`
to all be present (truthy) before calling the platform. -/
def execute_change_bid (platform : AdsPlatform) (action : ProposedActionRec) :
    ExecResult × Nat :=
  let target := action.target.getD {}
  if !truthyI target.ad_group_id || !truthyI target.criterion_id ||
      !truthyI target.new_bid_micros then
    ({ status := "SKIPPED", reason := some "Missing bid parameters in target" }, 0)
  else
    match platform.update_criterion_bid (target.ad_group_id.getD 0)
        (target.criterion_id.getD 0) (target.new_bid_micros.getD 0) with
    | .ok rn => ({ status := "SUCCESS", resource_name := some rn }, 1)
    | .adsException e msgs =>
        ({ status := "FAILED", error := some e, error_messages := msgs }, 1)
    | .exn e => ({ status := "FAILED", error := some e }, 1)

/-- `CampaignExecutor.execute_change_budget` (`agents/executor.py` lines
371-463): after the truthiness guard it first queries the campaign's
budget resource, then mutates it; both are platform invocations. -/
def execute_change_budget (platform : AdsPlatform) (action : ProposedActionRec) :
    ExecResult × Nat :=
  let target := action.target.getD {}
  if !truthyI target.new_budget_micros then
    ({ status := "SKIPPED", reason := some "Missing new_budget_micros in target" }, 0)
  else
    match platform.search_campaign_budget action.campaign_id with
    | .found budget_resource =>
      match platform.mutate_campaign_budgets budget_resource
          (target.new_budget_micros.getD 0) with
      | .ok rn => ({ status := "SUCCESS", resource_name := some rn }, 2)
      | .adsException e msgs =>
          ({ status := "FAILED", error := some e, error_messages := msgs }, 2)
      | .exn e => ({ status := "FAILED", error := some e }, 2)
    | .notFound => ({ status := "FAILED", error := some "Campaign budget not found" }, 1)
    | .adsException e msgs =>
        ({ status := "FAILED", error := some e, error_messages := msgs }, 1)
    | .exn e => ({ status := "FAILED", error := some e }, 1)

/-- `CampaignExecutor.execute_action` (`agents/executor.py` lines
465-505): dispatch by action type through the handler table; an unknown
type is NOT_IMPLEMENTED without touching the platform.  The surrounding
`try`/`except` cannot fire here because the embedded handlers are total. -/
def execute_action (platform : AdsPlatform) (action : ProposedActionRec) :
    ExecResult × Nat :=
  match action.action_type with
  | "PAUSE_AD" => execute_pause_ad platform action
  | "PAUSE_KEYWORD" => execute_pause_keyword platform action
  | "ADD_NEGATIVE_KEYWORD" => execute_add_negative_keyword platform action
  | "REDUCE_BID" => execute_change_bid platform action
  | "INCREASE_BID" => execute_change_bid platform action
  | "INCREASE_BUDGET" => execute_change_budget platform action
  | "DECREASE_BUDGET" => execute_change_budget platform action
  | _ => ({ status := "NOT_IMPLEMENTED",
            reason := some ("Action type " ++ action.action_type ++ " not yet implemented") }, 0)

/-- The `ActionLog` row created by `save_execution_log`. -/
def execLog (now : Nat) (action : ProposedActionRec) (result : ExecResult) :
    ActionLogRec :=
  { action_id := action.id
    campaign_id := action.campaign_id
    action_type := action.action_type
    status := result.status
    error_message := result.error
    executed_at := now }

/-- `CampaignExecutor.save_execution_log` (`agents/executor.py` lines
507-543): appends exactly one log row whose status is the attempt's raw
outcome, and sets the action's status to EXECUTED when the outcome is
SUCCESS and FAILED otherwise. -/
def save_execution_log (now : Nat) (action : ProposedActionRec)
    (result : ExecResult) (db : DBState) : DBState :=
  { actions := db.actions.map fun a =>
      if a.id == action.id then
        { a with
          status := if result.status == "SUCCESS" then "EXECUTED" else "FAILED"
          executed_at := some now
          execution_error := result.error }
      else a
    logs := db.logs ++ [execLog now action result] }

/-- The ordering key of `get_pending_actions`: SQLAlchemy
`ORDER BY priority DESC, created_at ASC` over the string-typed priority
column, i.e. byte-wise lexicographic descending on priority, ties broken
by ascending creation time. -/
def pendingOrder (a b : ProposedActionRec) : Bool :=
  if a.priority == b.priority then a.created_at ≤ b.created_at
  else strLt b.priority a.priority

/-- Insertion into a list sorted by `r` (model of the SQL ORDER BY). -/
def insertOrd (r : ProposedActionRec → ProposedActionRec → Bool)
    (x : ProposedActionRec) : List ProposedActionRec → List ProposedActionRec
  | [] => [x]
  | y :: ys => if r x y then x :: y :: ys else y :: insertOrd r x ys

/-- Sorting by `r` (model of the SQL ORDER BY). -/
def sortOrd (r : ProposedActionRec → ProposedActionRec → Bool) :
    List ProposedActionRec → List ProposedActionRec
  | [] => []
  | x :: xs => insertOrd r x (sortOrd r xs)

/-- `CampaignExecutor.get_pending_actions` (`agents/executor.py` lines
41-64): all APPROVED actions, filtered to one campaign only when the
`campaign_id` argument is truthy, ordered by `priority DESC,
created_at ASC`. -/
def get_pending_actions (db : DBState) (campaign_id : Option Int) :
    List ProposedActionRec :=
  let q := db.actions.filter fun a => a.status == "APPROVED"
  let q := match campaign_id with
    | some cid => if cid != 0 then q.filter (fun a => a.campaign_id == cid) else q
    | none => q
  sortOrd pendingOrder q

/-- One entry of the per-action `results` list built by
`execute_pending_actions`. -/
structure ActionResultEntry where
  action_id : Nat
  action_type : String
  campaign_id : Int
  result : ExecResult
  deriving Repr, DecidableEq

/-- The summary dictionary `execute_pending_actions` returns: the early
return when no action is pending, or the full summary with counters
(wall-clock duration and timestamp are not modelled). -/
inductive BatchSummary
  | empty (status : String) (actions_executed : Nat) (message : String)
  | full (status : String) (total_actions success_count failed_count skipped_count : Nat)
      (dry_run : Bool) (results : List ActionResultEntry)
  deriving Repr, DecidableEq

/-- The top-level `status` key of the summary. -/
def BatchSummary.statusKey : BatchSummary → String
  | .empty s _ _ => s
  | .full s _ _ _ _ _ _ => s

/-- The per-action `results` list of the summary (empty on early return). -/
def BatchSummary.resultsList : BatchSummary → List ActionResultEntry
  | .empty _ _ _ => []
  | .full _ _ _ _ _ _ res => res

/-- The statuses the counting branch of `execute_pending_actions` lumps
into `skipped_count`. -/
def is_skipped_status (st : String) : Bool :=
  st == "SKIPPED" || st == "NOT_IMPLEMENTED" || st == "DRY_RUN"

/-- Accumulated effect of the action loop of `execute_pending_actions`. -/
structure BatchAcc where
  db : DBState
  success_count : Nat := 0
  failed_count : Nat := 0
  skipped_count : Nat := 0
  results : List ActionResultEntry := []
  platform_calls : Nat := 0
  deriving Repr, DecidableEq

/-- The per-action loop of `execute_pending_actions` (`agents/executor.py`
lines 586-619): in dry-run mode the result is the constant DRY_RUN
dictionary and neither the dispatcher nor `save_execution_log` runs;
otherwise the action is executed and exactly one log row is saved.  The
counters follow the `if`/`elif` chain of lines 607-612. -/
def execute_batch (platform : AdsPlatform) (now : Nat) (dry_run : Bool) :
    List ProposedActionRec → DBState → BatchAcc
  | [], db => { db := db }
  | action :: rest, db =>
    let step : ExecResult × Nat × DBState :=
      if dry_run then
        ({ status := "DRY_RUN", message := some "Execution skipped in dry run mode" }, 0, db)
      else
        let rc := execute_action platform action
        (rc.1, rc.2, save_execution_log now action rc.1 db)
    let result := step.1
    let acc := execute_batch platform now dry_run rest step.2.2
    { db := acc.db
      success_count := (if result.status == "SUCCESS" then 1 else 0) + acc.success_count
      skipped_count := (if result.status != "SUCCESS" && is_skipped_status result.status
        then 1 else 0) + acc.skipped_count
      failed_count := (if result.status != "SUCCESS" && !is_skipped_status result.status
        then 1 else 0) + acc.failed_count
      results := { action_id := action.id, action_type := action.action_type,
                   campaign_id := action.campaign_id, result := result } :: acc.results
      platform_calls := step.2.1 + acc.platform_calls }

/-- `CampaignExecutor.execute_pending_actions` (`agents/executor.py`
lines 545-642): fetches the approved actions, returns the early summary
when there are none, and otherwise runs the loop and assembles the full
summary.  Returns the summary, the post-state of the store, and the
total number of platform-service invocations. -/
def execute_pending_actions (platform : AdsPlatform) (now : Nat) (db : DBState)
    (campaign_id : Option Int) (dry_run : Bool) : BatchSummary × DBState × Nat :=
  let actions := get_pending_actions db campaign_id
  if actions.isEmpty then
    (.empty "SUCCESS" 0 "No pending actions", db, 0)
  else
    let acc := execute_batch platform now dry_run actions db
    (.full "SUCCESS" actions.length acc.success_count acc.failed_count acc.skipped_count
        dry_run acc.results,
      acc.db, acc.platform_calls)

/-- An HTTP endpoint outcome: a successful JSON body or an
`HTTPException` with status code and detail. -/
inductive ApiResponse (α : Type)
  | ok (value : α)
  | httpError (status_code : Nat) (detail : String)
  deriving Repr, DecidableEq

/-- The success body of the approve/reject endpoints in
`api/routes/actions.py`. -/
structure GateResponse where
  success : Bool
  message : String
  action_id : Nat
  deriving Repr, DecidableEq

/-- `approve_action` (`api/routes/actions.py` lines 94-137): a raw
`UPDATE proposed_actions SET status = APPROVED WHERE id = :id` with no
status guard, committed before the rowcount check; on rowcount 0 the
`HTTPException(404)` raised inside the `try` is swallowed by the generic
handler and re-raised as a 500. -/
def approve_action (action_id : Nat) (db : DBState) :
    ApiResponse GateResponse × DBState :=
  let rowcount := db.actions.countP fun a => a.id == action_id
  let db' : DBState :=
    { db with actions := db.actions.map fun a =>
        if a.id == action_id then { a with status := "APPROVED" } else a }
  if rowcount == 0 then (.httpError 500 "404: Action not found", db')
  else (.ok { success := true, message := "Action approved and queued for execution",
              action_id := action_id }, db')

/-- `reject_action` (`api/routes/actions.py` lines 139-175): the same
unguarded raw UPDATE, setting status REJECTED for whatever row matches
the id, regardless of its current status. -/
def reject_action (action_id : Nat) (db : DBState) :
    ApiResponse GateResponse × DBState :=
  let rowcount := db.actions.countP fun a => a.id == action_id
  let db' : DBState :=
    { db with actions := db.actions.map fun a =>
        if a.id == action_id then { a with status := "REJECTED" } else a }
  if rowcount == 0 then (.httpError 500 "404: Action not found", db')
  else (.ok { success := true, message := "Action rejected", action_id := action_id }, db')

/-- Replace the row with the same id (the ORM object mutation plus
commit). -/
def updateAction (db : DBState) (a : ProposedActionRec) : DBState :=
  { db with actions := db.actions.map fun x => if x.id == a.id then a else x }

/-- Append one log row. -/
def addLog (db : DBState) (l : ActionLogRec) : DBState :=
  { db with logs := db.logs ++ [l] }

/-- The success body of the apply endpoint. -/
structure ApplyResponse where
  success : Bool
  optimization_id : Nat
  status : String
  deriving Repr, DecidableEq

/-- `apply_optimization` (`api/routes/optimizations.py` lines 87-192):
404 when the id is unknown; 400 with a "not pending" detail and no
mutation when the status is not PENDING; otherwise approve (committed),
validate budget targets, execute, and either mark APPLIED with a SUCCESS
log or mark FAILED with a FAILED log and re-raise a 500 (the inner
generic `except` converts the `HTTPException` it raised itself). -/
def apply_optimization (platform : AdsPlatform) (now : Nat)
    (optimization_id : Nat) (db : DBState) : ApiResponse ApplyResponse × DBState :=
  match db.actions.find? (fun a => a.id == optimization_id) with
  | none => (.httpError 404 "Optimization not found", db)
  | some optimization =>
    if optimization.status != "PENDING" then
      (.httpError 400
        ("Optimization is not pending (current status: " ++ optimization.status ++ ")"), db)
    else
      let opt1 := { optimization with
        status := "APPROVED", approved_at := some now, approved_by := some "user@dashboard" }
      let db1 := updateAction db opt1
      if (opt1.action_type == "INCREASE_BUDGET" || opt1.action_type == "DECREASE_BUDGET" ||
          opt1.action_type == "CHANGE_BUDGET") &&
          !truthyI (opt1.target.getD {}).new_budget_micros then
        (.httpError 400 "Optimization missing required field: new_budget_micros in target", db1)
      else
        let rc := execute_action platform opt1
        if rc.1.status == "SUCCESS" then
          let opt2 := { opt1 with status := "APPLIED", executed_at := some now }
          let db2 := addLog (updateAction db1 opt2)
            { action_id := opt1.id, campaign_id := opt1.campaign_id,
              action_type := opt1.action_type, status := "SUCCESS", executed_at := now }
          (.ok { success := true, optimization_id := optimization_id, status := "APPLIED" }, db2)
        else
          let opt2 := { opt1 with status := "FAILED" }
          let db2 := addLog (updateAction db1 opt2)
            { action_id := opt1.id, campaign_id := opt1.campaign_id,
              action_type := opt1.action_type, status := "FAILED",
              error_message := rc.1.reason.or rc.1.error, executed_at := now }
          (.httpError 500 "Failed to apply optimization", db2)

/-- `dismiss_optimization` (`api/routes/optimizations.py` lines 195-234):
guarded on PENDING like apply; a pending optimization is set to
DISMISSED. -/
def dismiss_optimization (optimization_id : Nat) (db : DBState) :
    ApiResponse ApplyResponse × DBState :=
  match db.actions.find? (fun a => a.id == optimization_id) with
  | none => (.httpError 404 "Optimization not found", db)
  | some optimization =>
    if optimization.status != "PENDING" then
      (.httpError 400
        ("Optimization is not pending (current status: " ++ optimization.status ++ ")"), db)
    else
      (.ok { success := true, optimization_id := optimization_id, status := "DISMISSED" },
        updateAction db { optimization with status := "DISMISSED" })

/-- A Python exception at the analyzer boundary, split into the two
classes the retry loop distinguishes: `ValueError` (the parse-error
class, retried) and everything else (not retried). -/
inductive PyExn
  | valueError (msg : String)
  | otherExn (msg : String)
  deriving Repr, DecidableEq

/-- `str(e)` of the exception, as stored in the result's `error` field. -/
def PyExn.text : PyExn → String
  | .valueError m => m
  | .otherExn m => m

/-- The parse-relevant shape of one generation-service response: after
markdown stripping and outermost-brace extraction the text either fails
to decode as JSON, or decodes to an object whose `actions` key is
present (with its list) or absent.  The character-level stripping of
`parse_ai_response` is abstracted into this shape. -/
inductive GenText
  | jsonObject (actions : Option (List ActionData)) (summary : Option String)
  | notJson (msg : String)

/-- The parsed response: the `actions` list and the optional `summary`. -/
structure ParsedResponse where
  actions : List ActionData
  summary : Option String := none

/-- `CampaignAnalyzer.parse_ai_response` (`agents/analyzer.py` lines
663-709): a JSON decode failure and a missing `actions` key both raise
`ValueError` (the retryable class); otherwise the decoded object is
returned. -/
def parse_ai_response : GenText → Except PyExn ParsedResponse
  | .notJson m => .error (.valueError ("Risposta AI non e JSON valido: " ++ m))
  | .jsonObject none _ => .error (.valueError "Risposta AI non contiene actions")
  | .jsonObject (some acts) summary => .ok { actions := acts, summary := summary }

/-- One try-block body of the retry loop: invoke the generation service
for attempt `k` and, if it returns text, parse it; an exception from
either step propagates to the `except` clauses. -/
def attempt_outcome (gen : Nat → Except PyExn GenText) (k : Nat) :
    Except PyExn ParsedResponse :=
  match gen k with
  | .error e => .error e
  | .ok text => parse_ai_response text

/-- The result dictionary `analyze_campaign` returns: saved actions and
summary on success, the last error and an empty action list on failure. -/
structure AnalysisResult where
  campaign_id : Int
  campaign_name : Option String := none
  actions : List ProposedActionRec := []
  summary : Option String := none
  error : Option String := none

/-- The error return of `analyze_campaign` after the loop exits without
success (lines 654-661). -/
def analysis_error_result (campaign_id : Int) (campaign_name : String)
    (last_error : Option PyExn) : AnalysisResult :=
  { campaign_id := campaign_id
    campaign_name := some campaign_name
    actions := []
    error := some (match last_error with | some e => e.text | none => "Unknown error") }

/-- The retry loop of `CampaignAnalyzer.analyze_campaign`
(`agents/analyzer.py` lines 606-652): `attempt` is the current loop
index, `remaining` the attempts left out of `max_retries`.  A
`ValueError` retries (or, on the last attempt, breaks to the error
return); any other exception breaks immediately; on success the parsed
actions are saved and the success dictionary returned.  The last
component counts generation-service invocations. -/
def analyze_loop (gen : Nat → Except PyExn GenText) (campaign_id : Int)
    (campaign_name : String) (startId : Nat) (now : Nat) (db : DBState) :
    Nat → Nat → Option PyExn → AnalysisResult × DBState × Nat
  | _, 0, last_error => (analysis_error_result campaign_id campaign_name last_error, db, 0)
  | attempt, remaining + 1, _ =>
    match attempt_outcome gen attempt with
    | .error (.valueError m) =>
      let r := analyze_loop gen campaign_id campaign_name startId now db
        (attempt + 1) remaining (some (.valueError m))
      (r.1, r.2.1, r.2.2 + 1)
    | .error (.otherExn m) =>
      (analysis_error_result campaign_id campaign_name (some (.otherExn m)), db, 1)
    | .ok parsed =>
      let saved := save_proposed_actions campaign_id campaign_name parsed.actions
        (parsed.summary.getD "") startId now db
      ({ campaign_id := campaign_id
         campaign_name := some campaign_name
         actions := saved.2
         summary := some (parsed.summary.getD "") }, saved.1, 1)

/-- `CampaignAnalyzer.analyze_campaign` (`agents/analyzer.py` lines
565-661): with no latest metric the no-data error result is returned
without calling the service; otherwise the retry loop runs with
`max_retries = 3`.  Total by construction: no exception escapes this
boundary. -/
def analyze_campaign (gen : Nat → Except PyExn GenText)
    (latest_metric : Option Snapshot) (campaign_id : Int) (startId : Nat)
    (now : Nat) (db : DBState) : AnalysisResult × DBState × Nat :=
  match latest_metric with
  | none =>
    ({ campaign_id := campaign_id, actions := [], error := some "No metrics found" }, db, 0)
  | some m =>
    let max_retries := 3
    analyze_loop gen campaign_id m.campaign_name startId now db 0 max_retries none

/-! ### Concrete fixtures for evaluation -/

/-- A platform oracle for concrete evaluations: every mutation answers
with a fixed resource name; the budget lookup finds nothing. -/
def trivialPlatform : AdsPlatform :=
  { mutate_ad_group_ads := fun _ _ => .ok "r"
    pause_ad_group_criterion := fun _ _ => .ok "r"
    update_criterion_bid := fun _ _ _ => .ok "r"
    mutate_campaign_criteria := fun _ _ _ => .ok "r"
    search_campaign_budget := fun _ => .notFound
    mutate_campaign_budgets := fun _ _ => .ok "r" }

/-- An approved action whose target payload is empty. -/
def actEmptyTarget : ProposedActionRec :=
  { id := 1, campaign_id := 10, action_type := "INCREASE_BUDGET",
    target := some {}, status := "APPROVED" }

/-! ### C7 — confidence normalization -/

/-- C7: the persisted confidence of a parsed model action carrying
confidence `c` is `c/100` when `c > 1` and `c` otherwise; the
normalization leaves values in `[0,1]` unchanged and is therefore
idempotent on its output domain. -/
theorem confidence_normalization (campaign_id : Int) (campaign_name ai_summary : String)
    (startId now : Nat) (db : DBState) (a : ActionData) (c : ℚ)
    (hc : a.confidence = some c) :
    ((save_proposed_actions campaign_id campaign_name [a] ai_summary startId now db).1.actions
        = db.actions ++
          [proposed_of_action_data campaign_id campaign_name ai_summary startId now a]
      ∧ (proposed_of_action_data campaign_id campaign_name ai_summary startId now a).confidence
        = if c > 1 then c / 100 else c)
    ∧ (∀ q : ℚ, 0 ≤ q → q ≤ 1 → normalize_confidence q = q)
    ∧ (∀ q : ℚ, 0 ≤ normalize_confidence q → normalize_confidence q ≤ 1 →
        normalize_confidence (normalize_confidence q) = normalize_confidence q) := by
  refine ⟨⟨?_, ?_⟩, ?_, ?_⟩
  · simp [save_proposed_actions]
  · simp [proposed_of_action_data, hc, normalize_confidence]
  · intro q _ h1
    simp [normalize_confidence, not_lt.mpr h1]
  · intro q _ h1
    rw [normalize_confidence, if_neg (not_lt.mpr h1)]

/-- Witness for C7 at confidence 85 (percent scale). -/
theorem confidence_normalization_witness :
    (proposed_of_action_data 1 "C" "S" 5 0
      { action_type := "INCREASE_BUDGET", confidence := some 85 }).confidence = 85 / 100 := by
  have h := confidence_normalization 1 "C" "S" 5 0 {}
    { action_type := "INCREASE_BUDGET", confidence := some 85 } 85 rfl
  rw [h.1.2]
  norm_num

/-! ### C3 — missing target fields are skipped without platform calls -/

/-- C3: each handler, given an action whose target lacks a required
field, returns SKIPPED with a reason and performs zero platform-service
invocations. -/
theorem missing_target_skips (platform : AdsPlatform) (action : ProposedActionRec) :
    ((action.target.getD {}).new_budget_micros = none →
      execute_change_budget platform action =
        ({ status := "SKIPPED", reason := some "Missing new_budget_micros in target" }, 0))
    ∧ ((action.target.getD {}).ad_group_id = none ∨
        (action.target.getD {}).criterion_id = none ∨
        (action.target.getD {}).new_bid_micros = none →
      execute_change_bid platform action =
        ({ status := "SKIPPED", reason := some "Missing bid parameters in target" }, 0))
    ∧ ((action.target.getD {}).ad_group_id = none ∨ (action.target.getD {}).ad_id = none →
      execute_pause_ad platform action =
        ({ status := "SKIPPED", reason := some "Missing ad_group_id or ad_id in target" }, 0))
    ∧ ((action.target.getD {}).ad_group_id = none ∨
        (action.target.getD {}).criterion_id = none →
      execute_pause_keyword platform action =
        ({ status := "SKIPPED",
           reason := some "Missing ad_group_id or criterion_id in target" }, 0))
    ∧ ((action.target.getD {}).keywords = [] →
      execute_add_negative_keyword platform action =
        ({ status := "SKIPPED", reason := some "No keywords specified in target" }, 0)) := by
  refine ⟨?_, ?_, ?_, ?_, ?_⟩
  · intro h
    simp [execute_change_budget, h, truthyI]
  · rintro (h | h | h) <;> simp [execute_change_bid, h, truthyI]
  · rintro (h | h) <;> simp [execute_pause_ad, h, truthyI]
  · rintro (h | h) <;> simp [execute_pause_keyword, h, truthyI]
  · intro h
    simp [execute_add_negative_keyword, h]

/-- Witness for C3: an action with an empty target payload is SKIPPED by
every handler, with zero platform calls. -/
theorem missing_target_skips_witness :
    execute_change_budget trivialPlatform actEmptyTarget =
      ({ status := "SKIPPED", reason := some "Missing new_budget_micros in target" }, 0)
    ∧ execute_change_bid trivialPlatform actEmptyTarget =
      ({ status := "SKIPPED", reason := some "Missing bid parameters in target" }, 0)
    ∧ execute_pause_ad trivialPlatform actEmptyTarget =
      ({ status := "SKIPPED", reason := some "Missing ad_group_id or ad_id in target" }, 0)
    ∧ execute_pause_keyword trivialPlatform actEmptyTarget =
      ({ status := "SKIPPED", reason := some "Missing ad_group_id or criterion_id in target" }, 0)
    ∧ execute_add_negative_keyword trivialPlatform actEmptyTarget =
      ({ status := "SKIPPED", reason := some "No keywords specified in target" }, 0) := by
  have h := missing_target_skips trivialPlatform actEmptyTarget
  exact ⟨h.1 rfl, h.2.1 (Or.inl rfl), h.2.2.1 (Or.inl rfl), h.2.2.2.1 (Or.inl rfl),
    h.2.2.2.2 rfl⟩

/-! ### C9 — divide-by-zero guards in the trend block -/

/-- C9 counterexample: the day-over-day conversions figure is an absolute
difference, not a guarded percentage delta; with a prior of 0 conversions
and a current value of 5 it is 5, not 0. -/
theorem conv_delta_counterexample :
    (trend_of_history [{ conversions := 5 }, { conversions := 0 }]).map
        (fun t => t.daily_conv_change) = some 5
    ∧ (5 : ℚ) ≠ 0 := by
  constructor
  · norm_num [trend_of_history, trend_changes, List.getD, List.getLastD]
  · norm_num

/-- C9 amended: every percentage delta the prompt block computes (CTR and
ROAS day-over-day; CTR, CPC and ROAS week-over-week) yields 0 when the
prior value is not positive, instead of a division error; the
day-over-day conversions figure is the plain difference (no division);
in particular a week-over-week CPC change from a week-ago CPC of 0 to a
current CPC of 0.50 is 0. -/
theorem trend_zero_prior_guards (latest yesterday week_ago : HistEntry) :
    ((yesterday.ctr ≤ 0 →
        (trend_changes latest yesterday week_ago).daily_ctr_change = 0)
      ∧ (yesterday.roas ≤ 0 →
        (trend_changes latest yesterday week_ago).daily_roas_change = 0)
      ∧ (week_ago.ctr ≤ 0 →
        (trend_changes latest yesterday week_ago).weekly_ctr_change = 0)
      ∧ (week_ago.cpc ≤ 0 →
        (trend_changes latest yesterday week_ago).weekly_cpc_change = 0)
      ∧ (week_ago.roas ≤ 0 →
        (trend_changes latest yesterday week_ago).weekly_roas_change = 0))
    ∧ (trend_changes latest yesterday week_ago).daily_conv_change
        = latest.conversions - yesterday.conversions
    ∧ (week_ago.cpc = 0 → latest.cpc = 1/2 →
        (trend_changes latest yesterday week_ago).weekly_cpc_change = 0) := by
  refine ⟨⟨?_, ?_, ?_, ?_, ?_⟩, rfl, ?_⟩
  · intro h
    simp [trend_changes, not_lt.mpr h]
  · intro h
    simp [trend_changes, not_lt.mpr h]
  · intro h
    simp [trend_changes, not_lt.mpr h]
  · intro h
    simp [trend_changes, not_lt.mpr h]
  · intro h
    simp [trend_changes, not_lt.mpr h]
  · intro h _
    simp [trend_changes, h]

/-- Witness for C9 amended: the week-over-week CPC scenario of the spec,
with a week-ago CPC of 0 and a current CPC of 0.50. -/
theorem trend_zero_prior_guards_witness :
    (trend_changes { cpc := 1/2 } {} {}).weekly_cpc_change = 0
    ∧ (trend_changes { cpc := 1/2 } {} {}).daily_conv_change = 0 := by
  have h := trend_zero_prior_guards { cpc := 1/2 } {} {}
  exact ⟨h.2.2 rfl rfl, by rw [h.2.1]; norm_num⟩

/-! ### C5 — ordering of the approved-action queue -/

/-- An approved HIGH-priority action, older than `actMediumPrio`. -/
def actHighPrio : ProposedActionRec :=
  { id := 1, campaign_id := 10, action_type := "INCREASE_BUDGET",
    priority := "HIGH", status := "APPROVED", created_at := 0 }

/-- An approved MEDIUM-priority action, newer than `actHighPrio`. -/
def actMediumPrio : ProposedActionRec :=
  { id := 2, campaign_id := 10, action_type := "INCREASE_BUDGET",
    priority := "MEDIUM", status := "APPROVED", created_at := 5 }

/-- C5: `ORDER BY priority DESC` over the string-typed priority column is
byte-wise lexicographic, so a MEDIUM action is returned before an older
HIGH action — the queue is not processed HIGH before MEDIUM before LOW
as the spec states. -/
theorem priority_order_lexicographic :
    (get_pending_actions { actions := [actHighPrio, actMediumPrio], logs := [] } none).map
        (fun a => (a.priority, a.id)) = [("MEDIUM", 2), ("HIGH", 1)]
    ∧ strLt "HIGH" "MEDIUM" = true := by
  decide

/-! ### C8 — LOW_ROAS alerting -/

/-- C8 counterexample: a PAUSED campaign with conversions and a ROAS far
below the minimum produces no LOW_ROAS alert, so "a LOW_ROAS alert is
produced exactly when conversions > 0 and ROAS is below the configured
minimum" fails — the detector also requires the campaign not to be
paused. -/
theorem low_roas_paused_counterexample :
    detect_anomalies {}
      [{ campaign_id := 1, status := "PAUSED", roas := 1/10, conversions := 5 }] = []
    ∧ (0 : ℚ) < 5
    ∧ (1 : ℚ)/10 < ({} : Settings).TARGET_ROAS_MIN := by
  refine ⟨by decide, by norm_num, ?_⟩
  have h : ({} : Settings).TARGET_ROAS_MIN = 3/2 := rfl
  rw [h]
  norm_num

/-- C8 amended: a snapshot yields a LOW_ROAS alert exactly when the
campaign is not paused, its conversions are positive and its ROAS is
below the configured minimum; every LOW_ROAS alert has severity HIGH;
and a snapshot with zero conversions never yields one. -/
theorem low_roas_iff (s : Settings) (c : Snapshot) :
    ((detect_anomalies s [c]).any (fun a => a.alert_type == "LOW_ROAS") = true ↔
      c.status ≠ "PAUSED" ∧ 0 < c.conversions ∧ c.roas < s.TARGET_ROAS_MIN)
    ∧ (∀ a ∈ detect_anomalies s [c], a.alert_type = "LOW_ROAS" → a.severity = "HIGH")
    ∧ (c.conversions = 0 →
      (detect_anomalies s [c]).any (fun a => a.alert_type == "LOW_ROAS") = false) := by
  have hbase : detect_anomalies s [c] = detectOne s c := by
    simp [detect_anomalies]
  refine ⟨?_, ?_, ?_⟩
  · rw [hbase]
    unfold detectOne
    split_ifs with h1 h2 h3 h4 h5 h6 <;>
      simp_all [List.any_append, ne_eq, truthyQ]
  · rw [hbase]
    unfold detectOne
    split_ifs <;> intro a ha <;> simp_all [List.mem_append] <;>
      rcases ha with h | h | h | h | h <;> simp_all
  · intro h0
    rw [hbase]
    unfold detectOne
    split_ifs with h1 h2 h3 h4 h5 h6 <;> simp_all [List.any_append]

/-- Witness for C8 amended: an enabled campaign with 5 conversions and
ROAS 0.1 against the default minimum 1.5 does get a LOW_ROAS alert. -/
theorem low_roas_iff_witness :
    (detect_anomalies {}
      [{ campaign_id := 1, status := "ENABLED", roas := 1/10, conversions := 5 }]).any
        (fun a => a.alert_type == "LOW_ROAS") = true := by
  refine (low_roas_iff {}
    { campaign_id := 1, status := "ENABLED", roas := 1/10, conversions := 5 }).1.mpr
    ⟨by decide, by norm_num, ?_⟩
  have h : ({} : Settings).TARGET_ROAS_MIN = 3/2 := rfl
  rw [h]
  norm_num

/-! ### C10 — batch summary counters -/

/-- Exactly one of the three counter branches of the `if`/`elif` chain
fires for any outcome status. -/
theorem bucket_indicator_sum (st : String) :
    (if st == "SUCCESS" then 1 else 0)
      + (if st != "SUCCESS" && !is_skipped_status st then 1 else 0)
      + (if st != "SUCCESS" && is_skipped_status st then 1 else 0) = 1 := by
  by_cases h1 : st = "SUCCESS"
  · subst h1
    decide
  · cases h2 : is_skipped_status st <;> simp [h1, h2, bne]

/-- The loop counters partition the processed batch and agree with
counting over the per-action results list. -/
theorem execute_batch_counts (platform : AdsPlatform) (now : Nat) (dry_run : Bool)
    (l : List ProposedActionRec) (db : DBState) :
    (execute_batch platform now dry_run l db).success_count
        + (execute_batch platform now dry_run l db).failed_count
        + (execute_batch platform now dry_run l db).skipped_count = l.length
    ∧ (execute_batch platform now dry_run l db).success_count
      = (execute_batch platform now dry_run l db).results.countP
          (fun e => e.result.status == "SUCCESS")
    ∧ (execute_batch platform now dry_run l db).skipped_count
      = (execute_batch platform now dry_run l db).results.countP
          (fun e => e.result.status != "SUCCESS" && is_skipped_status e.result.status) := by
  induction l generalizing db with
  | nil => simp [execute_batch]
  | cons a rest ih =>
    cases dry_run with
    | false =>
      obtain ⟨ih1, ih2, ih3⟩ := ih (save_execution_log now a (execute_action platform a).1 db)
      simp only [execute_batch, Bool.false_eq_true, if_false, List.length_cons,
        List.countP_cons]
      by_cases h1 : (execute_action platform a).1.status = "SUCCESS" <;>
        cases h2 : is_skipped_status (execute_action platform a).1.status <;>
          simp [h1, h2] <;> omega
    | true =>
      obtain ⟨ih1, ih2, ih3⟩ := ih db
      have e1 : (("DRY_RUN" : String) == "SUCCESS") = false := by decide
      have e2 : is_skipped_status "DRY_RUN" = true := by decide
      have e3 : (("DRY_RUN" : String) != "SUCCESS") = true := by decide
      simp only [execute_batch, if_true, List.length_cons, List.countP_cons]
      simp [e1, e2, e3]
      omega

/-- C10: `execute_pending_actions` always reports top-level status
SUCCESS (also when every per-action outcome is FAILED), and in the full
summary the counters partition the batch, with SKIPPED, NOT_IMPLEMENTED
and DRY_RUN all counted as skipped. -/
theorem batch_summary_partition (platform : AdsPlatform) (now : Nat) (db : DBState)
    (campaign_id : Option Int) (dry_run : Bool) :
    (execute_pending_actions platform now db campaign_id dry_run).1.statusKey = "SUCCESS"
    ∧ (∀ st total s f k dr res,
        (execute_pending_actions platform now db campaign_id dry_run).1
          = .full st total s f k dr res →
        s + f + k = total
        ∧ s = res.countP (fun e => e.result.status == "SUCCESS")
        ∧ k = res.countP
            (fun e => e.result.status != "SUCCESS" && is_skipped_status e.result.status)) := by
  by_cases h : (get_pending_actions db campaign_id).isEmpty
  · constructor
    · simp [execute_pending_actions, h, BatchSummary.statusKey]
    · intro st total s f k dr res hfull
      simp [execute_pending_actions, h] at hfull
  · constructor
    · simp [execute_pending_actions, h, BatchSummary.statusKey]
    · intro st total s f k dr res hfull
      simp only [execute_pending_actions, h, if_neg, Bool.false_eq_true,
        not_false_eq_true, if_false] at hfull
      obtain ⟨hc1, hc2, hc3⟩ := execute_batch_counts platform now dry_run
        (get_pending_actions db campaign_id) db
      cases hfull
      exact ⟨hc1, hc2, hc3⟩

/-- Witness for C10: a batch with a single approved budget action whose
platform lookup fails — every outcome is FAILED, yet the summary status
is SUCCESS and the counters partition the batch (0 + 1 + 0 = 1). -/
theorem batch_summary_partition_witness :
    (execute_pending_actions trivialPlatform 0
      { actions := [{ id := 4, campaign_id := 10, action_type := "INCREASE_BUDGET",
                      target := some { new_budget_micros := some 50000000 },
                      status := "APPROVED" }], logs := [] } none false).1.statusKey = "SUCCESS"
    ∧ (0 : Nat) + 1 + 0 = 1 := by
  have h := batch_summary_partition trivialPlatform 0
    { actions := [{ id := 4, campaign_id := 10, action_type := "INCREASE_BUDGET",
                    target := some { new_budget_micros := some 50000000 },
                    status := "APPROVED" }], logs := [] } none false
  refine ⟨h.1, ?_⟩
  have h2 := h.2 "SUCCESS" 1 0 1 0 false
    [{ action_id := 4, action_type := "INCREASE_BUDGET", campaign_id := 10,
       result := { status := "FAILED", error := some "Campaign budget not found" } }]
    (by decide)
  exact h2.1

/-! ### C6 — dry-run frame -/

/-- In dry-run mode the loop runs neither the dispatcher nor
`save_execution_log`: the store is untouched, no platform call is made,
and every per-action result is the constant DRY_RUN dictionary. -/
theorem execute_batch_dry_run (platform : AdsPlatform) (now : Nat)
    (l : List ProposedActionRec) (db : DBState) :
    (execute_batch platform now true l db).db = db
    ∧ (execute_batch platform now true l db).platform_calls = 0
    ∧ ∀ e ∈ (execute_batch platform now true l db).results,
        e.result.status = "DRY_RUN" := by
  induction l generalizing db with
  | nil => simp [execute_batch]
  | cons a rest ih =>
    obtain ⟨ih1, ih2, ih3⟩ := ih db
    refine ⟨by simp [execute_batch, ih1], by simp [execute_batch, ih2], ?_⟩
    intro e he
    simp only [execute_batch, if_true, List.mem_cons] at he
    rcases he with he | he
    · rw [he]
    · exact ih3 e he

/-- C6 counterexample: a dry run on an approved action of an unsupported
type reports the uniform outcome DRY_RUN, not the NOT_IMPLEMENTED that
dispatch (step 1) would determine — the dry-run path performs no
dispatch or validation at all. -/
theorem dry_run_outcome_counterexample :
    ((execute_pending_actions trivialPlatform 0
      { actions := [{ id := 9, campaign_id := 11, action_type := "PAUSE_CAMPAIGN",
                      target := some {}, status := "APPROVED" }], logs := [] }
      none true).1.resultsList.map (fun e => e.result.status) = ["DRY_RUN"])
    ∧ (execute_action trivialPlatform
        { id := 9, campaign_id := 11, action_type := "PAUSE_CAMPAIGN",
          target := some {}, status := "APPROVED" }).1.status = "NOT_IMPLEMENTED"
    ∧ "DRY_RUN" ≠ "NOT_IMPLEMENTED" := by
  decide

/-- C6 amended: a dry run never invokes the platform, writes no log rows,
leaves every action's status (indeed the whole store) unchanged, and
reports every per-action outcome as DRY_RUN. -/
theorem dry_run_frame (platform : AdsPlatform) (now : Nat) (db : DBState)
    (campaign_id : Option Int) :
    (execute_pending_actions platform now db campaign_id true).2.1 = db
    ∧ (execute_pending_actions platform now db campaign_id true).2.2 = 0
    ∧ ∀ e ∈ (execute_pending_actions platform now db campaign_id true).1.resultsList,
        e.result.status = "DRY_RUN" := by
  obtain ⟨h1, h2, h3⟩ := execute_batch_dry_run platform now
    (get_pending_actions db campaign_id) db
  by_cases h : (get_pending_actions db campaign_id).isEmpty
  · refine ⟨by simp [execute_pending_actions, h], by simp [execute_pending_actions, h], ?_⟩
    intro e he
    simp [execute_pending_actions, h, BatchSummary.resultsList] at he
  · refine ⟨by simp [execute_pending_actions, h, h1],
      by simp [execute_pending_actions, h, h2], ?_⟩
    intro e he
    simp only [execute_pending_actions, h, Bool.false_eq_true, not_false_eq_true,
      if_false, BatchSummary.resultsList] at he
    exact h3 e he

/-- Witness for C6 amended, on the unsupported-type fixture. -/
theorem dry_run_frame_witness :
    (execute_pending_actions trivialPlatform 0
      { actions := [{ id := 9, campaign_id := 11, action_type := "PAUSE_CAMPAIGN",
                      target := some {}, status := "APPROVED" }], logs := [] } none true).2.1
      = { actions := [{ id := 9, campaign_id := 11, action_type := "PAUSE_CAMPAIGN",
                        target := some {}, status := "APPROVED" }], logs := [] }
    ∧ (execute_pending_actions trivialPlatform 0
      { actions := [{ id := 9, campaign_id := 11, action_type := "PAUSE_CAMPAIGN",
                      target := some {}, status := "APPROVED" }], logs := [] } none true).2.2
      = 0 := by
  have h := dry_run_frame trivialPlatform 0
    { actions := [{ id := 9, campaign_id := 11, action_type := "PAUSE_CAMPAIGN",
                    target := some {}, status := "APPROVED" }], logs := [] } none
  exact ⟨h.1, h.2.1⟩

/-! ### C4 — execution log vs action status -/

/-- C4 counterexample: a skipped execution attempt (budget action with no
`new_budget_micros`) leaves the action in status FAILED while its single
log row has status SKIPPED — a FAILED action need not have a FAILED
log. -/
theorem failed_status_skipped_log_counterexample :
    ((execute_pending_actions trivialPlatform 3
        { actions := [actEmptyTarget], logs := [] } none false).2.1.actions.map
        (fun a => (a.id, a.status)) = [(1, "FAILED")])
    ∧ ((execute_pending_actions trivialPlatform 3
        { actions := [actEmptyTarget], logs := [] } none false).2.1.logs.map
        (fun l => (l.action_id, l.status)) = [(1, "SKIPPED")])
    ∧ "SKIPPED" ≠ "FAILED" := by
  decide

/-- C4 amended: every non-dry-run attempt appends exactly one ActionLog
row, whose status is the attempt's raw outcome (which may be SKIPPED or
NOT_IMPLEMENTED, not only SUCCESS/FAILED), and sets the action's status
to EXECUTED when the outcome is SUCCESS and to FAILED otherwise; hence
an EXECUTED action's unique log has status SUCCESS, while a FAILED
action's unique log carries the outcome, not necessarily FAILED. -/
theorem save_execution_log_one_row (now : Nat) (action : ProposedActionRec)
    (result : ExecResult) (db : DBState)
    (h : db.logs.filter (fun l => l.action_id == action.id) = []) :
    (save_execution_log now action result db).logs
      = db.logs ++ [execLog now action result]
    ∧ ((save_execution_log now action result db).logs.filter
        (fun l => l.action_id == action.id)).map (fun l => l.status) = [result.status]
    ∧ (save_execution_log now action result db).actions
      = db.actions.map (fun a => if a.id == action.id then
          { a with status := if result.status == "SUCCESS" then "EXECUTED" else "FAILED",
                   executed_at := some now, execution_error := result.error }
        else a)
    ∧ (execLog now action result).status = result.status := by
  refine ⟨rfl, ?_, rfl, rfl⟩
  simp [save_execution_log, List.filter_append, h, execLog]

/-- Witness for C4 amended: a SKIPPED outcome on a fresh store yields one
log row with status SKIPPED. -/
theorem save_execution_log_one_row_witness :
    ((save_execution_log 3 actEmptyTarget { status := "SKIPPED" }
        { actions := [actEmptyTarget], logs := [] }).logs.filter
      (fun l => l.action_id == actEmptyTarget.id)).map (fun l => l.status)
      = ["SKIPPED"] := by
  have h := save_execution_log_one_row 3 actEmptyTarget { status := "SKIPPED" }
    { actions := [actEmptyTarget], logs := [] } rfl
  exact h.2.1

/-! ### C1 — approval gate guards -/

/-- A proposed action already in terminal status APPLIED. -/
def actApplied : ProposedActionRec :=
  { id := 3, campaign_id := 10, action_type := "INCREASE_BUDGET", status := "APPLIED" }

/-- C1 counterexample: approving an action already in status APPLIED does
not fail with a "not pending" error — the approve endpoint succeeds and
mutates the record to APPROVED, because its raw UPDATE has no status
guard. -/
theorem approve_applied_counterexample :
    (approve_action 3 { actions := [actApplied], logs := [] }).1
      = .ok { success := true, message := "Action approved and queued for execution",
              action_id := 3 }
    ∧ (approve_action 3 { actions := [actApplied], logs := [] }).2.actions.map
        (fun a => (a.id, a.status)) = [(3, "APPROVED")] := by
  decide

/-- C1 amended: the approve and reject endpoints update the matching row
unconditionally — any existing action, whatever its current status, is
set to APPROVED resp. REJECTED (so a PENDING action does transition as
the claim states, but so does any other); only the apply and dismiss
endpoints guard on PENDING, failing with a "not pending" error and no
mutation when the status is anything else. -/
theorem approval_gate_behavior (platform : AdsPlatform) (now : Nat)
    (action_id : Nat) (db : DBState) :
    ((approve_action action_id db).2.actions
      = db.actions.map (fun a =>
          if a.id == action_id then { a with status := "APPROVED" } else a))
    ∧ ((reject_action action_id db).2.actions
      = db.actions.map (fun a =>
          if a.id == action_id then { a with status := "REJECTED" } else a))
    ∧ (∀ opt, db.actions.find? (fun a => a.id == action_id) = some opt →
        opt.status ≠ "PENDING" →
        apply_optimization platform now action_id db =
          (.httpError 400
            ("Optimization is not pending (current status: " ++ opt.status ++ ")"), db))
    ∧ (∀ opt, db.actions.find? (fun a => a.id == action_id) = some opt →
        opt.status ≠ "PENDING" →
        dismiss_optimization action_id db =
          (.httpError 400
            ("Optimization is not pending (current status: " ++ opt.status ++ ")"), db)) := by
  refine ⟨?_, ?_, ?_, ?_⟩
  · simp only [approve_action]
    split <;> rfl
  · simp only [reject_action]
    split <;> rfl
  · intro opt hfind hne
    have hb : (opt.status != "PENDING") = true := by
      simpa [bne_iff_ne] using hne
    simp [apply_optimization, hfind, hb]
  · intro opt hfind hne
    have hb : (opt.status != "PENDING") = true := by
      simpa [bne_iff_ne] using hne
    simp [dismiss_optimization, hfind, hb]

/-- Witness for C1 amended: on the APPLIED fixture, apply fails with the
"not pending" detail and leaves the store unchanged, while approve
rewrites the status. -/
theorem approval_gate_behavior_witness :
    apply_optimization trivialPlatform 0 3 { actions := [actApplied], logs := [] }
      = (.httpError 400 "Optimization is not pending (current status: APPLIED)",
          { actions := [actApplied], logs := [] })
    ∧ (approve_action 3 { actions := [actApplied], logs := [] }).2.actions
      = [{ actApplied with status := "APPROVED" }] := by
  have h := approval_gate_behavior trivialPlatform 0 3 { actions := [actApplied], logs := [] }
  constructor
  · have h3 := h.2.2.1 actApplied (by decide) (by decide)
    simpa using h3
  · rw [h.1]
    decide

/-! ### C2 — retry bound of the proposal loop -/

/-- Unfolding step of the retry loop on a retryable (ValueError)
attempt. -/
theorem analyze_loop_step_valueError (gen : Nat → Except PyExn GenText)
    (campaign_id : Int) (campaign_name : String) (startId now : Nat) (db : DBState)
    (attempt remaining : Nat) (le : Option PyExn) (m : String)
    (h : attempt_outcome gen attempt = .error (.valueError m)) :
    analyze_loop gen campaign_id campaign_name startId now db attempt (remaining + 1) le
      = ((analyze_loop gen campaign_id campaign_name startId now db
            (attempt + 1) remaining (some (.valueError m))).1,
         (analyze_loop gen campaign_id campaign_name startId now db
            (attempt + 1) remaining (some (.valueError m))).2.1,
         (analyze_loop gen campaign_id campaign_name startId now db
            (attempt + 1) remaining (some (.valueError m))).2.2 + 1) := by
  simp [analyze_loop, h]

/-- Unfolding step of the retry loop on a non-retryable attempt. -/
theorem analyze_loop_step_otherExn (gen : Nat → Except PyExn GenText)
    (campaign_id : Int) (campaign_name : String) (startId now : Nat) (db : DBState)
    (attempt remaining : Nat) (le : Option PyExn) (m : String)
    (h : attempt_outcome gen attempt = .error (.otherExn m)) :
    analyze_loop gen campaign_id campaign_name startId now db attempt (remaining + 1) le
      = (analysis_error_result campaign_id campaign_name (some (.otherExn m)), db, 1) := by
  simp [analyze_loop, h]

/-- C2: with a latest snapshot present, if every attempt's
generate-and-parse raises a ValueError (unparsable text), the loop
invokes the generation service exactly 3 times and returns the last
error with an empty action list and an untouched store; a non-retryable
error on the first attempt stops after exactly 1 invocation; in both
cases a result is returned rather than an exception raised. -/
theorem analyze_campaign_retry (gen : Nat → Except PyExn GenText) (m : Snapshot)
    (campaign_id : Int) (startId now : Nat) (db : DBState) :
    ((∀ k, ∃ msg, attempt_outcome gen k = .error (.valueError msg)) →
      (analyze_campaign gen (some m) campaign_id startId now db).2.2 = 3
      ∧ (analyze_campaign gen (some m) campaign_id startId now db).1.actions = []
      ∧ (analyze_campaign gen (some m) campaign_id startId now db).2.1 = db
      ∧ ∃ e, attempt_outcome gen 2 = .error e
          ∧ (analyze_campaign gen (some m) campaign_id startId now db).1.error
            = some e.text)
    ∧ (∀ msg, attempt_outcome gen 0 = .error (.otherExn msg) →
      (analyze_campaign gen (some m) campaign_id startId now db).2.2 = 1
      ∧ (analyze_campaign gen (some m) campaign_id startId now db).1.actions = []
      ∧ (analyze_campaign gen (some m) campaign_id startId now db).2.1 = db
      ∧ (analyze_campaign gen (some m) campaign_id startId now db).1.error = some msg) := by
  have hc : analyze_campaign gen (some m) campaign_id startId now db
      = analyze_loop gen campaign_id m.campaign_name startId now db 0 3 none := rfl
  constructor
  · intro h
    obtain ⟨m0, h0⟩ := h 0
    obtain ⟨m1, h1⟩ := h 1
    obtain ⟨m2, h2⟩ := h 2
    have E2 : analyze_loop gen campaign_id m.campaign_name startId now db 2 1
        (some (.valueError m1))
        = (analysis_error_result campaign_id m.campaign_name (some (.valueError m2)),
           db, 1) :=
      analyze_loop_step_valueError gen campaign_id m.campaign_name startId now db 2 0
        (some (.valueError m1)) m2 h2
    have E1 : analyze_loop gen campaign_id m.campaign_name startId now db 1 2
        (some (.valueError m0))
        = (analysis_error_result campaign_id m.campaign_name (some (.valueError m2)),
           db, 2) := by
      show analyze_loop gen campaign_id m.campaign_name startId now db 1 (1 + 1)
        (some (.valueError m0)) = _
      rw [analyze_loop_step_valueError gen campaign_id m.campaign_name startId now db 1 1
        (some (.valueError m0)) m1 h1]
      rw [show (1 + 1 : Nat) = 2 from rfl, E2]
    have E0 : analyze_loop gen campaign_id m.campaign_name startId now db 0 3 none
        = (analysis_error_result campaign_id m.campaign_name (some (.valueError m2)),
           db, 3) := by
      show analyze_loop gen campaign_id m.campaign_name startId now db 0 (2 + 1) none = _
      rw [analyze_loop_step_valueError gen campaign_id m.campaign_name startId now db 0 2
        none m0 h0]
      rw [show (0 + 1 : Nat) = 1 from rfl, E1]
    rw [hc, E0]
    exact ⟨rfl, rfl, rfl, .valueError m2, h2, rfl⟩
  · intro msg h0
    have E0 : analyze_loop gen campaign_id m.campaign_name startId now db 0 3 none
        = (analysis_error_result campaign_id m.campaign_name (some (.otherExn msg)),
           db, 1) := by
      show analyze_loop gen campaign_id m.campaign_name startId now db 0 (2 + 1) none = _
      rw [analyze_loop_step_otherExn gen campaign_id m.campaign_name startId now db 0 2
        none msg h0]
    rw [hc, E0]
    exact ⟨rfl, rfl, rfl, rfl⟩

/-- A generation oracle that always returns undecodable text. -/
def genAlwaysInvalid : Nat → Except PyExn GenText := fun _ => .ok (.notJson "x")

/-- Witness for C2: with the always-unparsable oracle the service is
invoked exactly 3 times, the action list is empty and the last parse
error is surfaced. -/
theorem analyze_campaign_retry_witness :
    (analyze_campaign genAlwaysInvalid (some { campaign_id := 1 }) 1 0 0
      { actions := [], logs := [] }).2.2 = 3
    ∧ (analyze_campaign genAlwaysInvalid (some { campaign_id := 1 }) 1 0 0
      { actions := [], logs := [] }).1.actions = [] := by
  have h := (analyze_campaign_retry genAlwaysInvalid { campaign_id := 1 } 1 0 0
    { actions := [], logs := [] }).1
    (fun _ => ⟨"Risposta AI non e JSON valido: x", rfl⟩)
  exact ⟨h.1, h.2.1⟩

end GoogleAdsAutomation
